import Mathlib

/-!
Verification of the Formal LaTeX-editor backend (src/backend/server.py,
src/backend/models.py, src/backend/database.py) against its specification.

The Python code is shallowly embedded: pydantic models become structures,
the MongoDB collections become lists held in an explicit state record, and
each FastAPI handler becomes a pure function from state (plus its request)
to a result together with the successor state.  `datetime.utcnow()` is
modelled by a natural-number clock carried in the state, and `uuid.uuid4()`
by an injective counter-derived string (randomness is not shallowly
embeddable; the counter captures the generator's freshness contract, and
the code only ever compares ids for equality).  Store failures that the
code guards with per-statement try/except are modelled with an explicit
failure oracle (`Nat → Bool`, indexed by statement position).
-/

/-- Open-ended JSON-like values, embedding the `Dict[str, Any]`
metadata/context fields of the pydantic models. -/
inductive JValue where
  | null
  | bool (b : Bool)
  | num (n : Int)
  | str (s : String)
  | arr (xs : List JValue)
  | obj (fields : List (String × JValue))

/-- A Python `Dict[str, Any]` as an association list. -/
abbrev PyDict := List (String × JValue)

/-- models.py `DocumentModel`: timestamps are clock readings (Nat). -/
structure DocumentModel where
  id : String
  title : String
  content : String
  template_id : Option String := none
  created_at : Nat
  updated_at : Nat
  tags : List String := []
  is_public : Bool := false
  metadata : PyDict := []

/-- models.py `TemplateModel`. -/
structure TemplateModel where
  id : String
  name : String
  description : String
  content : String
  category : String
  preview_image : Option String := none
  created_at : Nat := 0
  is_builtin : Bool := true
  metadata : PyDict := []

/-- models.py `ChatMessage`. -/
structure ChatMessage where
  id : String
  document_id : String
  message : String
  response : String
  timestamp : Nat
  context : PyDict := []

/-- models.py `DocumentCreate`; the defaults mirror the pydantic defaults. -/
structure DocumentCreate where
  title : String
  content : String := ""
  template_id : Option String := none
  tags : List String := []

/-- models.py `DocumentUpdate`: every field optional, default `None`. -/
structure DocumentUpdate where
  title : Option String := none
  content : Option String := none
  tags : Option (List String) := none
  metadata : Option PyDict := none

/-- models.py `ChatRequest`. -/
structure ChatRequest where
  document_id : String
  message : String
  context : Option PyDict := none

/-- The two client-visible error kinds of server.py: `HTTPException` with
status 404 or 500 and a detail string. -/
inductive ApiError where
  | notFound (detail : String)
  | internal (detail : String)
deriving Repr, DecidableEq

/-- HTTP status code of an `ApiError`. -/
def ApiError.status : ApiError → Nat
  | .notFound _ => 404
  | .internal _ => 500

/-- The three MongoDB collections used by the code, as lists in insertion
order (`insert_one` appends). -/
structure DB where
  documents : List DocumentModel := []
  templates : List TemplateModel := []
  chat_messages : List ChatMessage := []

/-- The empty store. -/
def emptyDB : DB := {}

/-- Process state threaded through the handlers: the store, the
`uuid.uuid4()` supply counter and the `datetime.utcnow()` clock. -/
structure Sys where
  db : DB := emptyDB
  nextUuid : Nat := 0
  now : Nat := 0

/-- Fresh empty state. -/
def emptySys : Sys := {}

/-- `uuid.uuid4()` modelled as the n-th fresh identifier.  The generator is
injective (proved below); this is the determinisation of uuid4's
never-collides contract, and the code only compares ids for equality. -/
def genUuid (n : Nat) : String := "uuid-" ++ String.mk (List.replicate n 'u')

theorem genUuid_length (n : Nat) : (genUuid n).length = 5 + n := by
  simp [genUuid, String.length_append]
  rfl

theorem genUuid_injective : Function.Injective genUuid := by
  intro a b h
  have h2 : (genUuid a).length = (genUuid b).length := by rw [h]
  simpa [genUuid_length] using h2

/-! ## database.py -/

/-- A `create_index` statement: (collection, field), in the order the
statements appear in `create_indexes` (database.py lines 44-55). -/
abbrev IndexSpec := String × String

/-- The eight index statements of database.py, in program order. -/
def indexSpecs : List IndexSpec :=
  [("documents", "id"), ("documents", "created_at"), ("documents", "tags"),
   ("templates", "id"), ("templates", "category"), ("templates", "is_builtin"),
   ("chat_messages", "document_id"), ("chat_messages", "timestamp")]

/-- The body of the single `try` block of `create_indexes`: the statements
run sequentially, and the first one that raises aborts the rest (control
jumps to the `except` handler).  `f i = true` means statement `i` raises.
Returns the indexes actually created. -/
def runIndexStmts (f : Nat → Bool) : List (Nat × IndexSpec) → List IndexSpec
  | [] => []
  | (i, sp) :: rest => if f i then [] else sp :: runIndexStmts f rest

/-- database.py `create_indexes`: one try/except around all eight
statements; the `except` logs a warning and swallows, so the function never
raises to its caller (second component `false` = did not raise). -/
def create_indexes (f : Nat → Bool) : List IndexSpec × Bool :=
  (runIndexStmts f indexSpecs.enum, false)

/-! ## server.py: template seeding -/

/-- The names importable in server.py's module scope (lines 1-11).  Name
resolution for a bare `datetime` inside a handler looks here (and in
builtins); the name is absent, because models.py's own
`from datetime import datetime` does not leak through
`from models import DocumentModel, ...`. -/
def serverImports : List String :=
  ["FastAPI", "HTTPException", "Depends", "CORSMiddleware", "JSONResponse",
   "asynccontextmanager", "os", "load_dotenv", "logging", "List", "Optional",
   "DocumentModel", "TemplateModel", "ChatMessage", "DocumentCreate",
   "DocumentUpdate", "ChatRequest",
   "connect_to_mongo", "close_mongo_connection", "get_collection"]

/-- Evaluating the expression `datetime.utcnow()` inside server.py: if the
name `datetime` resolved, it would return the current clock; it does not,
so evaluation raises `NameError`. -/
def resolveDatetimeUtcnow (now : Nat) : Except String Nat :=
  if serverImports.contains "datetime" then .ok now
  else .error "NameError: name 'datetime' is not defined"

/-- The number of builtin-flagged templates in a collection
(`count_documents({"is_builtin": True})`). -/
def builtinCount (ts : List TemplateModel) : Nat :=
  (ts.filter (fun t => t.is_builtin)).length

/-- The insertion loop of `initialize_templates` (server.py lines 283-288):
each `insert_one` is wrapped in its own try/except, so a failing insert is
logged and the loop continues with the next template.  `f i = true` means
the i-th insert raises. -/
def insertLoop (f : Nat → Bool) : List (Nat × TemplateModel) → DB → DB
  | [], db => db
  | (i, t) :: rest, db =>
      insertLoop f rest
        (if f i then db else { db with templates := db.templates ++ [t] })

/-! ## server.py: handlers -/

/-- `DocumentModel(**document.dict())` for a `DocumentCreate`: pydantic
fills id and both timestamps from their default factories and the remaining
fields from their defaults. -/
def docOfCreate (id : String) (now : Nat) (c : DocumentCreate) : DocumentModel :=
  { id := id, title := c.title, content := c.content,
    template_id := c.template_id, created_at := now, updated_at := now,
    tags := c.tags, is_public := false, metadata := [] }

/-- `POST /api/documents` (`create_document`): build the model from the
request, insert it, return it. -/
def create_document (s : Sys) (document : DocumentCreate) :
    Except ApiError DocumentModel × Sys :=
  let new_document := docOfCreate (genUuid s.nextUuid) s.now document
  (.ok new_document,
   { s with
       db.documents := s.db.documents ++ [new_document],
       nextUuid := s.nextUuid + 1 })

/-- `GET /api/documents` (`get_documents`): the server applies the sort,
then skip, then limit, whatever order the cursor methods were chained in. -/
def get_documents (db : DB) (skip : Nat := 0) (limit : Nat := 20) :
    List DocumentModel :=
  (((db.documents.mergeSort (fun a b => b.created_at ≤ a.created_at)).drop
      skip).take limit)

/-- `find_one({"id": document_id})` on the documents collection: first
match in insertion order. -/
def find_one_document (db : DB) (document_id : String) :
    Option DocumentModel :=
  db.documents.find? (fun d => d.id == document_id)

/-- `GET /api/documents/{document_id}` (`get_document`). -/
def get_document (db : DB) (document_id : String) :
    Except ApiError DocumentModel :=
  match find_one_document db document_id with
  | some d => .ok d
  | none => .error (.notFound "Document not found")

/-- `$set` of the non-None fields of the update request plus `updated_at`
(the dict comprehension of server.py line 350 followed by line 351). -/
def setFields (u : DocumentUpdate) (now : Nat) (d : DocumentModel) :
    DocumentModel :=
  { d with
      title := u.title.getD d.title,
      content := u.content.getD d.content,
      tags := u.tags.getD d.tags,
      metadata := u.metadata.getD d.metadata,
      updated_at := now }

/-- `update_one({"id": document_id}, {"$set": ...})`: apply `g` to the
first document whose id matches; return `matched_count` and the new
collection. -/
def updateFirst (document_id : String) (g : DocumentModel → DocumentModel) :
    List DocumentModel → Nat × List DocumentModel
  | [] => (0, [])
  | d :: rest =>
      if d.id == document_id then (1, g d :: rest)
      else
        let r := updateFirst document_id g rest
        (r.1, d :: r.2)

/-- `PUT /api/documents/{document_id}` (`update_document`).  The handler
first builds the update dict, then evaluates `datetime.utcnow()` —
which raises `NameError` because server.py never imports `datetime` — so
control reaches the generic `except Exception` and a 500 is returned with
the store untouched.  The `.ok` branch below is the continuation that the
code would run if the name resolved: `update_one`, the matched-count 404
check, then a re-read. -/
def update_document (s : Sys) (document_id : String)
    (update_data : DocumentUpdate) : Except ApiError DocumentModel × Sys :=
  match resolveDatetimeUtcnow s.now with
  | .error _ => (.error (.internal "Failed to update document"), s)
  | .ok now =>
      let r := updateFirst document_id (setFields update_data now)
        s.db.documents
      if r.1 = 0 then (.error (.notFound "Document not found"), s)
      else
        let s' : Sys := { s with db.documents := r.2 }
        match find_one_document s'.db document_id with
        | some d => (.ok d, s')
        | none => (.error (.internal "Failed to update document"), s')

/-- `delete_one({"id": document_id})`: remove the first document whose id
matches; return `deleted_count` and the new collection. -/
def deleteFirst (document_id : String) :
    List DocumentModel → Nat × List DocumentModel
  | [] => (0, [])
  | d :: rest =>
      if d.id == document_id then (1, rest)
      else
        let r := deleteFirst document_id rest
        (r.1, d :: r.2)

/-- `DELETE /api/documents/{document_id}` (`delete_document`). -/
def delete_document (s : Sys) (document_id : String) :
    Except ApiError String × Sys :=
  let r := deleteFirst document_id s.db.documents
  if r.1 = 0 then (.error (.notFound "Document not found"), s)
  else (.ok "Document deleted successfully", { s with db.documents := r.2 })

/-- `GET /api/templates` (`get_templates`): `query = {}`, then
`if category:` adds the filter — Python truthiness, so both `None` and the
empty string leave the query empty; then find + sort by name ascending,
`to_list(length=None)` (the whole result set). -/
def get_templates (db : DB) (category : Option String) :
    List TemplateModel :=
  let query : Option String :=
    match category with
    | some c => if c = "" then none else some c
    | none => none
  let matched :=
    match query with
    | some c => db.templates.filter (fun t : TemplateModel => t.category == c)
    | none => db.templates
  matched.mergeSort (fun a b => a.name ≤ b.name)

/-- `GET /api/templates/{template_id}` (`get_template`). -/
def get_template (db : DB) (template_id : String) :
    Except ApiError TemplateModel :=
  match db.templates.find? (fun t => t.id == template_id) with
  | some t => .ok t
  | none => .error (.notFound "Template not found")

/-! ## server.py: chat stub -/

/-- The fixed response payload of `POST /api/chat` (server.py lines
430-437). -/
structure ChatResponse where
  message : String
  suggestions : List String
deriving Repr, DecidableEq

/-- The placeholder response constant. -/
def chatResponse : ChatResponse :=
  { message := "AI integration coming soon! This is a placeholder response.",
    suggestions :=
      ["Try adding some mathematical equations with \\begin\x7bequation\x7d",
       "Consider using \\section\x7b\x7d to organize your content",
       "Use \\textbf\x7b\x7d for bold text and \\textit\x7b\x7d for italic text"] }

/-- Python's `str(response)` of the fixed response dict (server.py line
444): the dict printed with repr'd keys and values, backslashes doubled by
repr. -/
def pyStrChatResponse : String :=
  "\x7b'message': 'AI integration coming soon! This is a placeholder response.', 'suggestions': ['Try adding some mathematical equations with \\\\begin\x7bequation\x7d', 'Consider using \\\\section\x7b\x7d to organize your content', 'Use \\\\textbf\x7b\x7d for bold text and \\\\textit\x7b\x7d for italic text']\x7d"

/-- `POST /api/chat` (`chat_with_ai`): build the fixed response, persist a
`ChatMessage` (id and timestamp from their default factories, context
defaulted to `{}` by `chat_request.context or {}`), then return the fixed
response. -/
def chat_with_ai (s : Sys) (chat_request : ChatRequest) :
    Except ApiError ChatResponse × Sys :=
  let chat_message : ChatMessage :=
    { id := genUuid s.nextUuid,
      document_id := chat_request.document_id,
      message := chat_request.message,
      response := pyStrChatResponse,
      timestamp := s.now,
      context := chat_request.context.getD [] }
  (.ok chatResponse,
   { s with
       db.chat_messages := s.db.chat_messages ++ [chat_message],
       nextUuid := s.nextUuid + 1 })
/-- The fixed ordered list of five built-in templates of
`initialize_templates` (server.py lines 56-280), seeded with `created_at`
from the clock at seeding time set to 0 here (no claim depends on it). -/
def builtin_templates : List TemplateModel :=
 [{ id := "template_article",
    name := "Academic Article",
    description := "Standard academic article format with abstract, sections, and bibliography",
    content := "\\documentclass[12pt]\x7barticle\x7d\n\\usepackage[utf8]\x7binputenc\x7d\n\\usepackage\x7bamsmath\x7d\n\\usepackage\x7bamsfonts\x7d\n\\usepackage\x7bamssymb\x7d\n\\usepackage\x7bgeometry\x7d\n\\geometry\x7bmargin=1in\x7d\n\n\\title\x7bYour Title Here\x7d\n\\author\x7bYour Name\x7d\n\\date\x7b\\today\x7d\n\n\\begin\x7bdocument\x7d\n\n\\maketitle\n\n\\begin\x7babstract\x7d\nYour abstract goes here. This should be a brief summary of your work.\n\\end\x7babstract\x7d\n\n\\section\x7bIntroduction\x7d\nYour introduction content goes here.\n\n\\section\x7bMethodology\x7d\nDescribe your methodology here.\n\n\\section\x7bResults\x7d\nPresent your results here.\n\n\\section\x7bConclusion\x7d\nYour conclusions go here.\n\n\\bibliographystyle\x7bplain\x7d\n\\bibliography\x7breferences\x7d\n\n\\end\x7bdocument\x7d",
    category := "academic",
    preview_image := none,
    created_at := 0,
    is_builtin := true,
    metadata := [] },
{ id := "template_report",
    name := "Business Report",
    description := "Professional business report template with executive summary",
    content := "\\documentclass[12pt]\x7breport\x7d\n\\usepackage[utf8]\x7binputenc\x7d\n\\usepackage\x7bgeometry\x7d\n\\usepackage\x7bgraphicx\x7d\n\\usepackage\x7bfancyhdr\x7d\n\\geometry\x7bmargin=1in\x7d\n\n\\pagestyle\x7bfancy\x7d\n\\fancyhf\x7b\x7d\n\\rhead\x7b\\thepage\x7d\n\\lhead\x7bBusiness Report\x7d\n\n\\title\x7bBusiness Report Title\x7d\n\\author\x7bCompany Name\x7d\n\\date\x7b\\today\x7d\n\n\\begin\x7bdocument\x7d\n\n\\maketitle\n\n\\chapter\x7bExecutive Summary\x7d\nProvide a high-level overview of the report findings and recommendations.\n\n\\chapter\x7bIntroduction\x7d\nIntroduce the purpose and scope of this report.\n\n\\chapter\x7bAnalysis\x7d\nPresent your detailed analysis here.\n\n\\chapter\x7bRecommendations\x7d\nProvide actionable recommendations based on your analysis.\n\n\\chapter\x7bConclusion\x7d\nSummarize the key points and next steps.\n\n\\end\x7bdocument\x7d",
    category := "business",
    preview_image := none,
    created_at := 0,
    is_builtin := true,
    metadata := [] },
{ id := "template_presentation",
    name := "Presentation Slides",
    description := "LaTeX Beamer presentation template",
    content := "\\documentclass\x7bbeamer\x7d\n\\usetheme\x7bMadrid\x7d\n\\usecolortheme\x7bdefault\x7d\n\n\\title\x7bYour Presentation Title\x7d\n\\author\x7bYour Name\x7d\n\\institute\x7bYour Institution\x7d\n\\date\x7b\\today\x7d\n\n\\begin\x7bdocument\x7d\n\n\\frame\x7b\\titlepage\x7d\n\n\\begin\x7bframe\x7d\n\\frametitle\x7bOutline\x7d\n\\tableofcontents\n\\end\x7bframe\x7d\n\n\\section\x7bIntroduction\x7d\n\\begin\x7bframe\x7d\n\\frametitle\x7bIntroduction\x7d\n\\begin\x7bitemize\x7d\n    \\item First point\n    \\item Second point\n    \\item Third point\n\\end\x7bitemize\x7d\n\\end\x7bframe\x7d\n\n\\section\x7bMain Content\x7d\n\\begin\x7bframe\x7d\n\\frametitle\x7bMain Point\x7d\nYour main content goes here.\n\\end\x7bframe\x7d\n\n\\section\x7bConclusion\x7d\n\\begin\x7bframe\x7d\n\\frametitle\x7bConclusion\x7d\n\\begin\x7bitemize\x7d\n    \\item Summary point 1\n    \\item Summary point 2\n    \\item Thank you!\n\\end\x7bitemize\x7d\n\\end\x7bframe\x7d\n\n\\end\x7bdocument\x7d",
    category := "presentation",
    preview_image := none,
    created_at := 0,
    is_builtin := true,
    metadata := [] },
{ id := "template_math",
    name := "Mathematical Document",
    description := "Template for mathematical proofs and theorems",
    content := "\\documentclass[12pt]\x7barticle\x7d\n\\usepackage[utf8]\x7binputenc\x7d\n\\usepackage\x7bamsmath\x7d\n\\usepackage\x7bamsthm\x7d\n\\usepackage\x7bamssymb\x7d\n\\usepackage\x7bgeometry\x7d\n\\geometry\x7bmargin=1in\x7d\n\n\\newtheorem\x7btheorem\x7d\x7bTheorem\x7d\n\\newtheorem\x7blemma\x7d\x7bLemma\x7d\n\\newtheorem\x7bcorollary\x7d\x7bCorollary\x7d\n\\newtheorem\x7bdefinition\x7d\x7bDefinition\x7d\n\n\\title\x7bMathematical Document\x7d\n\\author\x7bYour Name\x7d\n\\date\x7b\\today\x7d\n\n\\begin\x7bdocument\x7d\n\n\\maketitle\n\n\\section\x7bIntroduction\x7d\nThis document demonstrates mathematical typesetting in LaTeX.\n\n\\begin\x7bdefinition\x7d\nA function $f: \\mathbb\x7bR\x7d \\to \\mathbb\x7bR\x7d$ is continuous at $x = a$ if...\n\\end\x7bdefinition\x7d\n\n\\begin\x7btheorem\x7d\nFor any continuous function $f$ on $[a,b]$, we have:\n\\begin\x7bequation\x7d\n\\int_a^b f(x) dx = F(b) - F(a)\n\\end\x7bequation\x7d\nwhere $F$ is an antiderivative of $f$.\n\\end\x7btheorem\x7d\n\n\\begin\x7bproof\x7d\nThe proof follows from the Fundamental Theorem of Calculus...\n\\end\x7bproof\x7d\n\n\\section\x7bExamples\x7d\n\\begin\x7balign\x7d\n\\frac\x7bd\x7d\x7bdx\x7d\\left(\\sin(x)\\right) &= \\cos(x) \\\\\n\\frac\x7bd\x7d\x7bdx\x7d\\left(e^x\\right) &= e^x \\\\\n\\frac\x7bd\x7d\x7bdx\x7d\\left(\\ln(x)\\right) &= \\frac\x7b1\x7d\x7bx\x7d\n\\end\x7balign\x7d\n\n\\end\x7bdocument\x7d",
    category := "academic",
    preview_image := none,
    created_at := 0,
    is_builtin := true,
    metadata := [] },
{ id := "template_letter",
    name := "Formal Letter",
    description := "Professional letter template",
    content := "\\documentclass[12pt]\x7bletter\x7d\n\\usepackage[utf8]\x7binputenc\x7d\n\\usepackage\x7bgeometry\x7d\n\\geometry\x7bmargin=1in\x7d\n\n\\signature\x7bYour Name\x7d\n\\address\x7bYour Address \\\\ City, State ZIP \\\\ Email: your.email@example.com\x7d\n\n\\begin\x7bdocument\x7d\n\n\\begin\x7bletter\x7d\x7bRecipient Name \\\\ Recipient Address \\\\ City, State ZIP\x7d\n\n\\opening\x7bDear [Recipient Name],\x7d\n\nThis is the body of your letter. Write your message here with proper paragraphs and formatting.\n\nSecond paragraph continues your message with additional details or information you want to convey.\n\n\\closing\x7bSincerely,\x7d\n\n\\end\x7bletter\x7d\n\n\\end\x7bdocument\x7d",
    category := "business",
    preview_image := none,
    created_at := 0,
    is_builtin := true,
    metadata := [] }]

/-- server.py `initialize_templates` (the template seeder): count the
builtin-flagged templates; if any exist, return without touching the
store; otherwise run the per-template insertion loop.  `f i = true` means
the i-th `insert_one` raises (and is logged and swallowed). -/
def seedTemplates (f : Nat → Bool) (db : DB) : DB :=
  let existing_count := builtinCount db.templates
  if existing_count > 0 then db
  else insertLoop f builtin_templates.enum db

/-- One client interaction with the API, for stating reachable-state
invariants.  Read-only endpoints are included for completeness; `tick`
advances the clock between requests. -/
inductive ApiOp where
  | createDoc (req : DocumentCreate)
  | listDocs (skip limit : Nat)
  | getDoc (document_id : String)
  | putDoc (document_id : String) (u : DocumentUpdate)
  | deleteDoc (document_id : String)
  | listTemplates (category : Option String)
  | getTemplate (template_id : String)
  | chat (req : ChatRequest)
  | seed (f : Nat → Bool)
  | tick (dt : Nat)

/-- State transition of one API operation (read-only handlers are pure in
the store, so they leave the state unchanged). -/
def applyOp (s : Sys) : ApiOp → Sys
  | .createDoc req => (create_document s req).2
  | .listDocs _ _ => s
  | .getDoc _ => s
  | .putDoc document_id u => (update_document s document_id u).2
  | .deleteDoc document_id => (delete_document s document_id).2
  | .listTemplates _ => s
  | .getTemplate _ => s
  | .chat req => (chat_with_ai s req).2
  | .seed f => { s with db := seedTemplates f s.db }
  | .tick dt => { s with now := s.now + dt }

/-! ## Helper lemmas -/

theorem datetime_not_imported : serverImports.contains "datetime" = false := by
  decide

/-- server.py's `update_document` always takes the exception path: the
`NameError` from the unresolved `datetime` is caught by the generic
handler, so the result is a 500 and the state is untouched. -/
theorem update_document_eq (s : Sys) (document_id : String)
    (u : DocumentUpdate) :
    update_document s document_id u
      = (.error (.internal "Failed to update document"), s) := by
  simp [update_document, resolveDatetimeUtcnow, serverImports]

theorem deleteFirst_of_find?_none (document_id : String) :
    ∀ docs : List DocumentModel,
      docs.find? (fun d => d.id == document_id) = none →
      deleteFirst document_id docs = (0, docs)
  | [] => fun _ => rfl
  | d :: rest => fun h => by
      by_cases hd : (d.id == document_id) = true
      · simp [List.find?_cons, hd] at h
      · simp only [List.find?_cons, hd, if_false, Bool.false_eq_true] at h
        simp [deleteFirst, hd,
          deleteFirst_of_find?_none document_id rest h]

theorem deleteFirst_mem (document_id : String) :
    ∀ (docs : List DocumentModel) (d : DocumentModel),
      d ∈ (deleteFirst document_id docs).2 → d ∈ docs
  | [], _, h => by cases h
  | d0 :: rest, d, h => by
      by_cases hd : (d0.id == document_id) = true
      · simp only [deleteFirst, hd, if_true] at h
        exact List.mem_cons_of_mem d0 h
      · simp only [deleteFirst, hd, if_false, Bool.false_eq_true] at h
        rcases List.mem_cons.mp h with h1 | h2
        · exact h1 ▸ List.mem_cons_self d0 rest
        · exact List.mem_cons_of_mem d0
            (deleteFirst_mem document_id rest d h2)

theorem insertLoop_templates (f : Nat → Bool) :
    ∀ (ts : List (Nat × TemplateModel)) (db : DB),
      (insertLoop f ts db).templates
        = db.templates ++ (ts.filter (fun p => !f p.1)).map Prod.snd
  | [], db => by simp [insertLoop]
  | (i, t) :: rest, db => by
      by_cases h : f i
      · simp [insertLoop, h, insertLoop_templates f rest]
      · simp [insertLoop, h, insertLoop_templates f rest]

theorem insertLoop_documents (f : Nat → Bool) :
    ∀ (ts : List (Nat × TemplateModel)) (db : DB),
      (insertLoop f ts db).documents = db.documents
  | [], _ => rfl
  | (i, t) :: rest, db => by
      by_cases h : f i
      · simp [insertLoop, h, insertLoop_documents f rest]
      · simp [insertLoop, h, insertLoop_documents f rest]

theorem seedTemplates_documents (f : Nat → Bool) (db : DB) :
    (seedTemplates f db).documents = db.documents := by
  by_cases h : builtinCount db.templates > 0
  · simp [seedTemplates, h]
  · simp [seedTemplates, h, insertLoop_documents]

theorem runIndexStmts_eq_takeWhile (f : Nat → Bool) :
    ∀ l : List (Nat × IndexSpec),
      runIndexStmts f l = (l.takeWhile (fun p => !f p.1)).map Prod.snd
  | [] => rfl
  | (i, sp) :: rest => by
      by_cases h : f i <;>
        simp [runIndexStmts, List.takeWhile_cons, h,
          runIndexStmts_eq_takeWhile f rest]

theorem mergeSort_by_name_sorted (l : List TemplateModel) :
    (l.mergeSort (fun a b => a.name ≤ b.name)).Pairwise
      (fun a b => a.name ≤ b.name) := by
  have h := @List.sorted_mergeSort TemplateModel
    (fun a b => a.name ≤ b.name)
    (fun a b c hab hbc => by
      simp only [decide_eq_true_eq] at *
      exact le_trans hab hbc)
    (fun a b => by
      simp only [Bool.or_eq_true, decide_eq_true_eq]
      exact le_total a.name b.name) l
  exact h.imp (by simp)

/-! ## Claim theorems -/

/-- C1 (code_bug evidence): as written, `PUT /api/documents/{id}` never
applies any field and never returns 200: for every state, id and partial
update it returns the 500 Internal error and leaves the store unchanged,
because the handler's `datetime.utcnow()` raises `NameError` (server.py
does not import `datetime`) and the generic `except` turns that into a
500.  The claim's merge-and-refresh behaviour is therefore unreachable. -/
theorem update_endpoint_always_internal_500 (s : Sys) (document_id : String)
    (u : DocumentUpdate) :
    update_document s document_id u
      = (.error (.internal "Failed to update document"), s) ∧
    (ApiError.internal "Failed to update document").status = 500 :=
  ⟨update_document_eq s document_id u, rfl⟩

/-- C2 (code_bug evidence): on an id that matches no stored document,
DELETE does fail with NotFound (404) and leaves the store unchanged, but
PUT returns the 500 Internal error (the `NameError` path), not 404 — the
claim holds for DELETE and fails for PUT. -/
theorem missing_id_delete_404_put_500 (s : Sys) (document_id : String)
    (h : find_one_document s.db document_id = none) :
    delete_document s document_id
      = (.error (.notFound "Document not found"), s) ∧
    (ApiError.notFound "Document not found").status = 404 ∧
    update_document s document_id {}
      = (.error (.internal "Failed to update document"), s) := by
  rw [find_one_document] at h
  have hdel := deleteFirst_of_find?_none document_id s.db.documents h
  exact ⟨by simp [delete_document, hdel], rfl,
    update_document_eq s document_id {}⟩

theorem missing_id_delete_404_put_500_witness :
    find_one_document emptySys.db "missing" = none ∧
    (delete_document emptySys "missing"
        = (.error (.notFound "Document not found"), emptySys) ∧
      (ApiError.notFound "Document not found").status = 404 ∧
      update_document emptySys "missing" {}
        = (.error (.internal "Failed to update document"), emptySys)) :=
  ⟨rfl, missing_id_delete_404_put_500 emptySys "missing" rfl⟩

/-- C9: a `category` query parameter equal to the empty string behaves
exactly like an absent parameter: `if category:` is Python truthiness, so
the empty string adds no filter and all templates are returned. -/
theorem empty_category_same_as_absent (db : DB) :
    get_templates db (some "") = get_templates db none := rfl

/-- C4: `POST /api/chat` returns the fixed placeholder message and the
fixed 3-element suggestions list for every request, and persists exactly
one ChatMessage carrying the request's document_id and message, the
stringified fixed response, and the supplied context (`{}` when absent). -/
theorem chat_fixed_response_and_persist (s : Sys) (req : ChatRequest) :
    (chat_with_ai s req).1 = .ok chatResponse ∧
    chatResponse.suggestions.length = 3 ∧
    (chat_with_ai s req).2.db.chat_messages
      = s.db.chat_messages
          ++ [{ id := genUuid s.nextUuid, document_id := req.document_id,
                message := req.message, response := pyStrChatResponse,
                timestamp := s.now, context := req.context.getD [] }] ∧
    (chat_with_ai s req).2.db.documents = s.db.documents ∧
    (chat_with_ai s req).2.db.templates = s.db.templates :=
  ⟨rfl, rfl, rfl, rfl, rfl⟩

/-- A small template used only to build concrete witness states. -/
def tplW : TemplateModel :=
  { id := "tw1", name := "Beta", description := "w", content := "w",
    category := "academic" }

/-- A second witness template with a different category and name. -/
def tplW2 : TemplateModel :=
  { id := "tw2", name := "Alpha", description := "w", content := "w",
    category := "business" }

theorem builtinCount_append (l1 l2 : List TemplateModel) :
    builtinCount (l1 ++ l2) = builtinCount l1 + builtinCount l2 := by
  simp [builtinCount, List.filter_append]

theorem builtinCount_le_length (l : List TemplateModel) :
    builtinCount l ≤ l.length :=
  List.length_filter_le _ _

theorem builtinCount_seed_le (f : Nat → Bool) (db : DB)
    (h : builtinCount db.templates ≤ 5) :
    builtinCount (seedTemplates f db).templates ≤ 5 := by
  by_cases h0 : builtinCount db.templates > 0
  · simpa [seedTemplates, h0] using h
  · have hz : builtinCount db.templates = 0 := by omega
    have hlen :
        ((builtin_templates.enum.filter (fun p => !f p.1)).map
            Prod.snd).length ≤ 5 := by
      rw [List.length_map]
      calc (builtin_templates.enum.filter (fun p => !f p.1)).length
          ≤ builtin_templates.enum.length := List.length_filter_le _ _
        _ = builtin_templates.length := List.enum_length
        _ = 5 := rfl
    have hgoal : (seedTemplates f db).templates
        = db.templates
            ++ (builtin_templates.enum.filter (fun p => !f p.1)).map
                Prod.snd := by
      simp [seedTemplates, h0, insertLoop_templates]
    rw [hgoal, builtinCount_append, hz]
    have hle := builtinCount_le_length
      ((builtin_templates.enum.filter (fun p => !f p.1)).map Prod.snd)
    omega

/-- C3: template seeding is idempotent.  If any builtin-flagged template
exists, the seeder returns without modifying the store at all; and any
number of seeding runs starting from the empty store leaves at most 5
builtin-flagged templates (each run with its own pattern of insert
failures). -/
theorem seeding_skip_and_bound :
    (∀ (f : Nat → Bool) (db : DB), 0 < builtinCount db.templates →
        seedTemplates f db = db) ∧
    (∀ fs : List (Nat → Bool),
        builtinCount
          ((fs.foldl (fun db f => seedTemplates f db) emptyDB).templates)
          ≤ 5) := by
  constructor
  · intro f db h
    simp [seedTemplates, h]
  · have gen : ∀ (fs : List (Nat → Bool)) (db : DB),
        builtinCount db.templates ≤ 5 →
        builtinCount
            ((fs.foldl (fun db f => seedTemplates f db) db).templates)
          ≤ 5 := by
      intro fs
      induction fs with
      | nil => intro db h; simpa using h
      | cons f fs ih =>
          intro db h
          exact ih _ (builtinCount_seed_le f db h)
    intro fs
    exact gen fs emptyDB (by simp [emptyDB, builtinCount])

theorem seeding_skip_and_bound_witness :
    0 < builtinCount [tplW] ∧
    seedTemplates (fun _ => false) { emptyDB with templates := [tplW] }
      = { emptyDB with templates := [tplW] } :=
  ⟨by decide,
   seeding_skip_and_bound.1 (fun _ => false)
     { emptyDB with templates := [tplW] } (by decide)⟩

/-- C6: when no builtin-flagged template exists the seeder attempts the
fixed ordered list of exactly five built-in templates — categories
academic ×2, business ×2, presentation ×1, all flagged builtin — and the
inserts are independent: whatever the set of failing inserts, exactly the
non-failing templates are appended, in order. -/
theorem seeder_fixed_list_independent :
    builtin_templates.length = 5 ∧
    (builtin_templates.filter
        (fun t => t.category == "academic")).length = 2 ∧
    (builtin_templates.filter
        (fun t => t.category == "business")).length = 2 ∧
    (builtin_templates.filter
        (fun t => t.category == "presentation")).length = 1 ∧
    (∀ t ∈ builtin_templates, t.is_builtin = true) ∧
    ∀ (f : Nat → Bool) (db : DB), builtinCount db.templates = 0 →
      (seedTemplates f db).templates
        = db.templates
            ++ (builtin_templates.enum.filter (fun p => !f p.1)).map
                Prod.snd := by
  refine ⟨rfl, rfl, rfl, rfl, by decide, ?_⟩
  intro f db h
  simp [seedTemplates, h, insertLoop_templates]

theorem seeder_fixed_list_independent_witness :
    builtinCount emptyDB.templates = 0 ∧
    (seedTemplates (fun i => i == 1) emptyDB).templates.map TemplateModel.id
      = ["template_article", "template_presentation", "template_math",
         "template_letter"] := by
  refine ⟨rfl, ?_⟩
  rw [seeder_fixed_list_independent.2.2.2.2.2 (fun i => i == 1) emptyDB rfl]
  rfl

/-- Every stored document id was produced by the uuid supply (holds in all
states reachable through the API from the empty store). -/
def UuidFresh (s : Sys) : Prop :=
  ∀ d ∈ s.db.documents, ∃ k, k < s.nextUuid ∧ d.id = genUuid k

/-- C5: creating a document from a title-only request yields content `""`,
tags `[]`, an id distinct from every stored document's id, and the
inserted record is exactly the returned record. -/
theorem create_title_only_defaults_fresh_id (s : Sys) (t : String)
    (h : UuidFresh s) :
    ∃ doc : DocumentModel,
      create_document s { title := t }
        = (.ok doc,
           { s with db.documents := s.db.documents ++ [doc],
                    nextUuid := s.nextUuid + 1 }) ∧
      doc.title = t ∧ doc.content = "" ∧ doc.tags = [] ∧
      ∀ d ∈ s.db.documents, d.id ≠ doc.id := by
  refine ⟨docOfCreate (genUuid s.nextUuid) s.now { title := t },
    rfl, rfl, rfl, rfl, ?_⟩
  intro d hd
  obtain ⟨k, hk, hid⟩ := h d hd
  simp only [docOfCreate, hid]
  intro hEq
  exact absurd (genUuid_injective hEq) (Nat.ne_of_lt hk)

theorem create_title_only_witness :
    UuidFresh emptySys ∧
    ∃ doc : DocumentModel,
      create_document emptySys { title := "A" }
        = (.ok doc,
           { emptySys with
               db.documents := emptySys.db.documents ++ [doc],
               nextUuid := emptySys.nextUuid + 1 }) ∧
      doc.title = "A" ∧ doc.content = "" ∧ doc.tags = [] ∧
      ∀ d ∈ emptySys.db.documents, d.id ≠ doc.id :=
  ⟨(by simp [UuidFresh, emptySys, emptyDB]),
   create_title_only_defaults_fresh_id emptySys "A"
     (by simp [UuidFresh, emptySys, emptyDB])⟩

/-- C7: template listing with a (truthy) category returns exactly the
templates whose category equals it — the whole result set, as a
permutation of the filtered collection — sorted by name ascending; with no
category it returns all templates sorted by name ascending. -/
theorem list_templates_filter_sort (db : DB) (c : String) (hc : c ≠ "") :
    ((get_templates db (some c)).Perm
        (db.templates.filter (fun t : TemplateModel => t.category == c)) ∧
      (get_templates db (some c)).Pairwise
        (fun a b => a.name ≤ b.name)) ∧
    ((get_templates db none).Perm db.templates ∧
      (get_templates db none).Pairwise (fun a b => a.name ≤ b.name)) := by
  have hsome : get_templates db (some c)
      = (db.templates.filter
          (fun t : TemplateModel => t.category == c)).mergeSort
          (fun a b => a.name ≤ b.name) := by
    simp [get_templates, hc]
  have hnone : get_templates db none
      = db.templates.mergeSort (fun a b => a.name ≤ b.name) := rfl
  refine ⟨⟨?_, ?_⟩, ?_, ?_⟩
  · rw [hsome]
    exact List.mergeSort_perm _ _
  · rw [hsome]
    exact mergeSort_by_name_sorted _
  · rw [hnone]
    exact List.mergeSort_perm _ _
  · rw [hnone]
    exact mergeSort_by_name_sorted _

theorem list_templates_filter_sort_witness :
    ("academic" : String) ≠ "" ∧
    (((get_templates { emptyDB with templates := [tplW, tplW2] }
          (some "academic")).Perm
        ([tplW, tplW2].filter
          (fun t : TemplateModel => t.category == "academic")) ∧
      (get_templates { emptyDB with templates := [tplW, tplW2] }
          (some "academic")).Pairwise (fun a b => a.name ≤ b.name)) ∧
     ((get_templates { emptyDB with templates := [tplW, tplW2] }
          none).Perm [tplW, tplW2] ∧
      (get_templates { emptyDB with templates := [tplW, tplW2] }
          none).Pairwise (fun a b => a.name ≤ b.name))) :=
  ⟨by decide,
   list_templates_filter_sort { emptyDB with templates := [tplW, tplW2] }
     "academic" (by decide)⟩

/-- C8 counterexample: the claim's independence half is false.  With a
failure pattern that makes only the first `create_index` statement raise,
no index at all is created — in particular the second index, whose own
statement did not fail, is never attempted, because all eight statements
sit in one try block. -/
theorem index_creation_claim_false :
    ¬ (∀ f : Nat → Bool,
        (create_indexes f).2 = false ∧
        ∀ p ∈ indexSpecs.enum, f p.1 = false →
          p.2 ∈ (create_indexes f).1) := by
  intro hcl
  have h := (hcl (fun i => i == 0)).2 (1, ("documents", "created_at"))
    (by decide) (by decide)
  exact absurd h (by decide)

/-- C8 (amended): `create_indexes` never raises — the lone try/except
swallows every failure — but the eight statements are sequential inside
that single try block, so the first failing statement aborts the rest:
exactly the longest failure-free prefix of the index list is created. -/
theorem create_indexes_swallow_prefix (f : Nat → Bool) :
    (create_indexes f).2 = false ∧
    (create_indexes f).1
      = (indexSpecs.enum.takeWhile (fun p => !f p.1)).map Prod.snd :=
  ⟨rfl, runIndexStmts_eq_takeWhile f indexSpecs.enum⟩

theorem applyOp_public_inv (s : Sys)
    (h : ∀ d ∈ s.db.documents, d.is_public = false) (op : ApiOp) :
    ∀ d ∈ (applyOp s op).db.documents, d.is_public = false := by
  cases op with
  | createDoc req =>
      intro d hd
      simp only [applyOp, create_document] at hd
      rcases List.mem_append.mp hd with h1 | h2
      · exact h d h1
      · rw [List.mem_singleton.mp h2]
        rfl
  | listDocs skip limit => exact h
  | getDoc document_id => exact h
  | putDoc document_id u =>
      intro d hd
      rw [show applyOp s (.putDoc document_id u) = s from
        congrArg Prod.snd (update_document_eq s document_id u)] at hd
      exact h d hd
  | deleteDoc document_id =>
      intro d hd
      simp only [applyOp, delete_document] at hd
      split at hd
      · exact h d hd
      · exact h d (deleteFirst_mem document_id s.db.documents d hd)
  | listTemplates category => exact h
  | getTemplate template_id => exact h
  | chat req =>
      intro d hd
      exact h d hd
  | seed f =>
      intro d hd
      simp only [applyOp] at hd
      rw [seedTemplates_documents] at hd
      exact h d hd
  | tick dt => exact h

/-- C10: `is_public = False` is an invariant of all API-created documents:
no sequence of API operations starting from the empty store can make any
stored document public (the create and update request shapes cannot carry
`is_public`), and every create returns a document with `is_public = False`
and `metadata = {}`. -/
theorem api_docs_never_public :
    (∀ ops : List ApiOp, ∀ d ∈ (ops.foldl applyOp emptySys).db.documents,
        d.is_public = false) ∧
    (∀ (s : Sys) (req : DocumentCreate) (doc : DocumentModel),
        (create_document s req).1 = .ok doc →
          doc.is_public = false ∧ doc.metadata = []) := by
  constructor
  · have gen : ∀ (ops : List ApiOp) (s : Sys),
        (∀ d ∈ s.db.documents, d.is_public = false) →
        ∀ d ∈ (ops.foldl applyOp s).db.documents, d.is_public = false := by
      intro ops
      induction ops with
      | nil => intro s h; exact h
      | cons op ops ih =>
          intro s h
          exact ih _ (applyOp_public_inv s h op)
    intro ops
    exact gen ops emptySys (by simp [emptySys, emptyDB])
  · intro s req doc h
    have hd : docOfCreate (genUuid s.nextUuid) s.now req = doc := by
      simpa [create_document] using h
    rw [← hd]
    exact ⟨rfl, rfl⟩

theorem api_docs_never_public_witness :
    (create_document emptySys { title := "A" }).1
        = .ok (docOfCreate (genUuid 0) 0 { title := "A" }) ∧
    ((docOfCreate (genUuid 0) 0 { title := "A" }).is_public = false ∧
      (docOfCreate (genUuid 0) 0 { title := "A" }).metadata = []) :=
  ⟨rfl,
   api_docs_never_public.2 emptySys { title := "A" }
     (docOfCreate (genUuid 0) 0 { title := "A" }) rfl⟩
